import Mathlib

/-
Shallow embedding of the span-conversion core of the Datadog exporter
(file span.go): the status-code table, the per-attribute dispatch
(setTag, setError, setStringTag, setMetric) and convertSpan itself.
Go maps are modelled as association lists with overwrite-on-insert;
numeric attribute payloads are carried as exact rationals (the float64
conversions of the source are modelled as exact, which is faithful for
every value the claims touch). Reserved key constants mirror the
dd-trace-go ext package constants imported by span.go.
-/

/-- Reserved error-attribute key (dd-trace-go ext.Error). -/
def extError : String := "error"

/-- Error-message tag key (dd-trace-go ext.ErrorMsg). -/
def extErrorMsg : String := "error.msg"

/-- Error-type tag key (dd-trace-go ext.ErrorType). -/
def extErrorType : String := "error.type"

/-- Service-name structural key (dd-trace-go ext.ServiceName). -/
def extServiceName : String := "service.name"

/-- Resource-name structural key (dd-trace-go ext.ResourceName). -/
def extResourceName : String := "resource.name"

/-- Span-type structural key (dd-trace-go ext.SpanType). -/
def extSpanType : String := "span.type"

/-- Sampling-priority key (dd-trace-go ext.SamplingPriority). -/
def extSamplingPriority : String := "sampling.priority"

/-- Analytics-event key (dd-trace-go ext.AnalyticsEvent). -/
def extAnalyticsEvent : String := "analytics.event"

/-- Event-sample-rate metric key (dd-trace-go ext.EventSampleRate). -/
def extEventSampleRate : String := "_dd1.sr.eausr"

/-- Internal sampling-priority metric key (span.go keySamplingPriority). -/
def keySamplingPriority : String := "_sampling_priority_v1"

/-- Status-description tag key (span.go keyStatusDescription). -/
def keyStatusDescription : String := "opentelemetry.status_description"

/-- Status-code tag key (span.go keyStatusCode). -/
def keyStatusCode : String := "opentelemetry.status_code"

/-- Status-message tag key (span.go keyStatus). -/
def keyStatus : String := "opentelemetry.status"

/-- Span-name override key (span.go keySpanName). -/
def keySpanName : String := "span.name"

/-- OpenTelemetry label.Value: a tagged union over the value kinds that
the dispatch in setTag distinguishes. The ARRAY constructor carries the
human-readable rendering that the source produces with fmt.Sprintf. -/
inductive LabelValue where
  | INVALID : LabelValue
  | BOOL : Bool → LabelValue
  | INT32 : Int → LabelValue
  | INT64 : Int → LabelValue
  | UINT32 : Nat → LabelValue
  | UINT64 : Nat → LabelValue
  | FLOAT32 : ℚ → LabelValue
  | FLOAT64 : ℚ → LabelValue
  | STRING : String → LabelValue
  | ARRAY : String → LabelValue
  deriving DecidableEq

/-- The output record (ddSpan): Metrics and Meta are the two mutable
key-value mappings, modelled as association lists. -/
structure DDSpan where
  TraceID : Nat
  SpanID : Nat
  ParentID : Nat
  Name : String
  Resource : String
  Service : String
  Typ : String
  Start : Int
  Duration : Int
  Error : Int
  Metrics : List (String × ℚ)
  Meta : List (String × String)
  deriving DecidableEq

/-- Map insert with overwrite: the Go map-assignment semantics. -/
def mapInsert {α : Type} (k : String) (v : α) : List (String × α) → List (String × α)
  | [] => [(k, v)]
  | p :: rest => if p.1 = k then (k, v) :: rest else p :: mapInsert k v rest

/-- Map lookup: the Go map-read semantics. -/
def mapLookup {α : Type} (k : String) : List (String × α) → Option α
  | [] => none
  | p :: rest => if p.1 = k then some p.2 else mapLookup k rest

/-- Details for one trace status code (span.go codeDetails). -/
structure CodeDetails where
  message : String
  status : Nat
  deriving DecidableEq

/-- The statusCodes table of span.go: codes.Code to message and HTTP
status, one entry per well-known gRPC code (0 through 16). -/
def statusCodes (c : Nat) : Option CodeDetails :=
  if c = 0 then some ⟨"OK", 200⟩
  else if c = 1 then some ⟨"CANCELLED", 499⟩
  else if c = 2 then some ⟨"UNKNOWN", 500⟩
  else if c = 3 then some ⟨"INVALID_ARGUMENT", 400⟩
  else if c = 4 then some ⟨"DEADLINE_EXCEEDED", 504⟩
  else if c = 5 then some ⟨"NOT_FOUND", 404⟩
  else if c = 6 then some ⟨"ALREADY_EXISTS", 409⟩
  else if c = 7 then some ⟨"PERMISSION_DENIED", 403⟩
  else if c = 8 then some ⟨"RESOURCE_EXHAUSTED", 429⟩
  else if c = 9 then some ⟨"FAILED_PRECONDITION", 400⟩
  else if c = 10 then some ⟨"ABORTED", 409⟩
  else if c = 11 then some ⟨"OUT_OF_RANGE", 400⟩
  else if c = 12 then some ⟨"UNIMPLEMENTED", 501⟩
  else if c = 13 then some ⟨"INTERNAL", 500⟩
  else if c = 14 then some ⟨"UNAVAILABLE", 503⟩
  else if c = 15 then some ⟨"DATA_LOSS", 501⟩
  else if c = 16 then some ⟨"UNAUTHENTICATED", 401⟩
  else none

/-- Status resolution as performed in convertSpan lines 67 to 73:
table lookup with the ERR_CODE fallback for unknown codes. -/
def resolveStatus (c : Nat) : CodeDetails :=
  match statusCodes c with
  | some d => d
  | none => ⟨"ERR_CODE_" ++ toString c, 500⟩

/-- Span kind as the switch in convertSpan distinguishes it: client,
server, or every other kind (which takes the default branch). -/
inductive SpanKind where
  | client : SpanKind
  | server : SpanKind
  | other : SpanKind
  deriving DecidableEq

/-- Span type assigned by the kind switch; other kinds leave the Go
zero value, the empty string. -/
def spanKindType : SpanKind → String
  | .client => "client"
  | .server => "server"
  | .other => ""

/-- Error flag assigned by the kind switch of convertSpan: client spans
flag 4xx statuses; server spans fall through to the default branch,
which flags 5xx statuses. -/
def statusErrorFlag (k : SpanKind) (status : Nat) : Int :=
  match k with
  | .client => if status / 100 = 4 then 1 else 0
  | _ => if status / 100 = 5 then 1 else 0

/-- setMetric of span.go: the sampling-priority key is renamed to the
internal key, every other key is stored under its own name. -/
def setMetric (s : DDSpan) (key : String) (v : ℚ) : DDSpan :=
  if key = extSamplingPriority then
    { s with Metrics := mapInsert keySamplingPriority v s.Metrics }
  else
    { s with Metrics := mapInsert key v s.Metrics }

/-- setStringTag of span.go: structural-field overrides for the
reserved keys, the analytics-event conversion to a metric, and the
generic Meta store otherwise. -/
def setStringTag (s : DDSpan) (key v : String) : DDSpan :=
  if key = extServiceName then { s with Service := v }
  else if key = extResourceName then { s with Resource := v }
  else if key = extSpanType then { s with Typ := v }
  else if key = extAnalyticsEvent then
    if v ≠ "false" then setMetric s extEventSampleRate 1
    else setMetric s extEventSampleRate 0
  else if key = keySpanName then { s with Name := v }
  else { s with Meta := mapInsert key v s.Meta }

/-- setError of span.go: the error flag decided by the value type, with
the string case also storing the error-message tag. -/
def setError (s : DDSpan) (val : LabelValue) : DDSpan :=
  match val with
  | .STRING str => { s with Error := 1, Meta := mapInsert extErrorMsg str s.Meta }
  | .BOOL b => { s with Error := if b then 1 else 0 }
  | .INT32 i => { s with Error := if 0 < i then 1 else 0 }
  | .INT64 i => { s with Error := if 0 < i then 1 else 0 }
  | .UINT32 n => { s with Error := if 0 < n then 1 else 0 }
  | .UINT64 n => { s with Error := if 0 < n then 1 else 0 }
  | .INVALID => { s with Error := 0 }
  | .FLOAT32 _ => { s with Error := 1 }
  | .FLOAT64 _ => { s with Error := 1 }
  | .ARRAY _ => { s with Error := 1 }

/-- setTag of span.go: the error key diverts to setError; otherwise the
switch on the value type routes to setStringTag or setMetric, and the
INVALID type falls out of the switch as a no-op. -/
def setTag (s : DDSpan) (key : String) (val : LabelValue) : DDSpan :=
  if key = extError then setError s val
  else match val with
    | .STRING v => setStringTag s key v
    | .BOOL b => setStringTag s key (if b then "true" else "false")
    | .FLOAT32 q => setMetric s key q
    | .FLOAT64 q => setMetric s key q
    | .INT32 i => setMetric s key (i : ℚ)
    | .INT64 i => setMetric s key (i : ℚ)
    | .UINT32 n => setMetric s key (n : ℚ)
    | .UINT64 n => setMetric s key (n : ℚ)
    | .ARRAY r => setStringTag s key r
    | .INVALID => s

/-- The two attribute loops of convertSpan: fold setTag over a sequence
of key-value pairs in order. -/
def applyTags (l : List (String × LabelValue)) (s : DDSpan) : DDSpan :=
  l.foldl (fun acc p => setTag acc p.1 p.2) s

/-- The input span (export.SpanData), reduced to the fields convertSpan
reads: identifiers as their numeric values, times as Unix nanoseconds,
the status code and message, the kind, and the attribute sequence. -/
structure SpanData where
  traceID : Nat
  spanID : Nat
  parentSpanID : Nat
  name : String
  startTime : Int
  endTime : Int
  spanKind : SpanKind
  statusCode : Nat
  statusMessage : String
  attributes : List (String × LabelValue)

/-- Exporter configuration consumed by convertSpan: the default service
name and the global tags. -/
structure Options where
  service : String
  globalTags : List (String × LabelValue)

/-- Steps 1 to 6 of convertSpan: the record before any attribute is
applied, with identifiers, names, times, the kind-derived type and
error flag, and the status and error tags written into Meta. -/
def statusPhase (opts : Options) (s : SpanData) : DDSpan :=
  let code := resolveStatus s.statusCode
  let err := statusErrorFlag s.spanKind code.status
  let meta0 : List (String × String) := []
  let meta1 :=
    if err = 1 then
      let m := mapInsert extErrorType code.message meta0
      if s.statusMessage ≠ "" then mapInsert extErrorMsg s.statusMessage m else m
    else meta0
  let meta2 := mapInsert keyStatusCode (toString s.statusCode) meta1
  let meta3 := mapInsert keyStatus code.message meta2
  let meta4 :=
    if s.statusMessage ≠ "" then mapInsert keyStatusDescription s.statusMessage meta3
    else meta3
  { TraceID := s.traceID % (2 ^ 64)
    SpanID := s.spanID
    ParentID := if s.parentSpanID ≠ 0 then s.parentSpanID else 0
    Name := "opentelemetry"
    Resource := s.name
    Service := opts.service
    Typ := spanKindType s.spanKind
    Start := s.startTime
    Duration := s.endTime - s.startTime
    Error := err
    Metrics := []
    Meta := meta4 }

/-- convertSpan of span.go: the status phase followed by the global-tag
loop and then the span-attribute loop. -/
def convertSpan (opts : Options) (s : SpanData) : DDSpan :=
  applyTags s.attributes (applyTags opts.globalTags (statusPhase opts s))

/-- The error flag that the Error Rule assigns for a given value, as a
pure function of the value (spec section 4.4). -/
def errorFlagValue : LabelValue → Int
  | .STRING _ => 1
  | .BOOL b => if b then 1 else 0
  | .INT32 i => if 0 < i then 1 else 0
  | .INT64 i => if 0 < i then 1 else 0
  | .UINT32 n => if 0 < n then 1 else 0
  | .UINT64 n => if 0 < n then 1 else 0
  | .INVALID => 0
  | .FLOAT32 _ => 1
  | .FLOAT64 _ => 1
  | .ARRAY _ => 1

/-- Whether a value dispatches to the numeric-metric path of setTag. -/
def isNumeric : LabelValue → Bool
  | .FLOAT32 _ => true
  | .FLOAT64 _ => true
  | .INT32 _ => true
  | .INT64 _ => true
  | .UINT32 _ => true
  | .UINT64 _ => true
  | _ => false

/-- The double-precision value the metric path stores for a numeric
label value (conversions modelled exactly). -/
def numericValue : LabelValue → ℚ
  | .FLOAT32 q => q
  | .FLOAT64 q => q
  | .INT32 i => (i : ℚ)
  | .INT64 i => (i : ℚ)
  | .UINT32 n => (n : ℚ)
  | .UINT64 n => (n : ℚ)
  | _ => 0

/-- Keys that the dispatch rule treats specially somewhere: the error
key, the five string-rule keys, the two error tag keys, and the metric
keys involved in renaming or analytics conversion. -/
def dispatchReservedKeys : List String :=
  [extError, extServiceName, extResourceName, extSpanType, extAnalyticsEvent, keySpanName,
   extErrorMsg, extEventSampleRate, extSamplingPriority, keySamplingPriority]

/-- Keys whose presence among the attributes can disturb the status and
error tags or the error flag of the status phase. -/
def statusReservedKeys : List String :=
  [extError, extErrorType, extErrorMsg, keyStatusCode, keyStatus, keyStatusDescription]

/-- A record with every field at its zero value, used as a concrete
input for witnesses. -/
def emptySpan : DDSpan :=
  { TraceID := 0, SpanID := 0, ParentID := 0, Name := "", Resource := "", Service := "",
    Typ := "", Start := 0, Duration := 0, Error := 0, Metrics := [], Meta := [] }

/-- Exporter options with no global tags, for concrete inputs. -/
def exOpts : Options := { service := "svc", globalTags := [] }

/-- Concrete input for the C1 counterexample: a server span with the
Unknown status (HTTP class 500) and an empty status message. -/
def c1Span : SpanData :=
  { traceID := 1, spanID := 2, parentSpanID := 0, name := "op", startTime := 0, endTime := 10,
    spanKind := .server, statusCode := 2, statusMessage := "", attributes := [] }

/-- Concrete input for the C1 witness: a client span with the Canceled
status, a status message, and one ordinary attribute. -/
def c1wSpan : SpanData :=
  { traceID := 1, spanID := 2, parentSpanID := 0, name := "op", startTime := 0, endTime := 10,
    spanKind := .client, statusCode := 1, statusMessage := "m",
    attributes := [("x", .STRING "y")] }

/-- Options for the C2 counterexample: one global string tag under the
key foo. -/
def c2Opts : Options := { service := "svc", globalTags := [("foo", .STRING "x")] }

/-- Concrete input for the C2 counterexample: a span-local integer
attribute under the same key foo as the global string tag. -/
def c2Span : SpanData :=
  { traceID := 1, spanID := 2, parentSpanID := 0, name := "op", startTime := 0, endTime := 10,
    spanKind := .other, statusCode := 0, statusMessage := "", attributes := [("foo", .INT64 1)] }

/-- Concrete input for the C3 counterexample: a client span with the
InvalidArgument status (HTTP class 400) and an error attribute of bool
false. -/
def c3Span : SpanData :=
  { traceID := 1, spanID := 2, parentSpanID := 0, name := "op", startTime := 0, endTime := 10,
    spanKind := .client, statusCode := 3, statusMessage := "",
    attributes := [(extError, .BOOL false)] }

/-- Concrete input for the C3 witness: a client span with the NotFound
status (HTTP class 404) and no attributes. -/
def c3wSpan : SpanData :=
  { traceID := 1, spanID := 2, parentSpanID := 0, name := "op", startTime := 0, endTime := 10,
    spanKind := .client, statusCode := 5, statusMessage := "", attributes := [] }

/-- Concrete input for the C4 counterexample: a server span carrying a
span-type attribute that overwrites the kind-derived type. -/
def c4Span : SpanData :=
  { traceID := 1, spanID := 2, parentSpanID := 0, name := "op", startTime := 0, endTime := 10,
    spanKind := .server, statusCode := 0, statusMessage := "",
    attributes := [(extSpanType, .STRING "web")] }

/-- Concrete input for the C4 witness: a plain server span with the
Internal status (HTTP class 500). -/
def c4wSpan : SpanData :=
  { traceID := 1, spanID := 2, parentSpanID := 0, name := "op", startTime := 0, endTime := 10,
    spanKind := .server, statusCode := 13, statusMessage := "", attributes := [] }

/-- Options for the C7 witness: one global string tag under the key
custom. -/
def c7Opts : Options := { service := "svc", globalTags := [("custom", .STRING "global")] }

/-- Concrete input for the C7 witness: a local attribute under the same
key custom as the global tag. -/
def c7Span : SpanData :=
  { traceID := 1, spanID := 2, parentSpanID := 0, name := "op", startTime := 0, endTime := 10,
    spanKind := .other, statusCode := 0, statusMessage := "",
    attributes := [("custom", .STRING "local")] }

/-- Concrete input for the C9 witness: a server span with the Internal
status (HTTP class 500), a status message, and an error attribute of
bool false that resets the flag. -/
def c9Span : SpanData :=
  { traceID := 1, spanID := 2, parentSpanID := 0, name := "op", startTime := 0, endTime := 10,
    spanKind := .server, statusCode := 13, statusMessage := "boom",
    attributes := [(extError, .BOOL false)] }

theorem mapLookup_insert_self {α : Type} (k : String) (v : α) (m : List (String × α)) :
    mapLookup k (mapInsert k v m) = some v := by
  induction m with
  | nil => simp [mapInsert, mapLookup]
  | cons p rest ih =>
    by_cases h : p.1 = k
    · simp [mapInsert, mapLookup, h]
    · simp [mapInsert, mapLookup, h, ih]

theorem mapLookup_insert_ne {α : Type} (q k : String) (v : α) (m : List (String × α))
    (h : q ≠ k) : mapLookup q (mapInsert k v m) = mapLookup q m := by
  induction m with
  | nil => simp [mapInsert, mapLookup, Ne.symm h]
  | cons p rest ih =>
    by_cases hp : p.1 = k
    · simp [mapInsert, mapLookup, hp, Ne.symm h]
    · simp only [mapInsert, if_neg hp, mapLookup]
      by_cases hq : p.1 = q
      · simp [hq]
      · simp [hq, ih]

@[simp] theorem setMetric_Meta (s : DDSpan) (key : String) (v : ℚ) :
    (setMetric s key v).Meta = s.Meta := by
  unfold setMetric; split_ifs <;> rfl

@[simp] theorem setMetric_Error (s : DDSpan) (key : String) (v : ℚ) :
    (setMetric s key v).Error = s.Error := by
  unfold setMetric; split_ifs <;> rfl

@[simp] theorem setMetric_Typ (s : DDSpan) (key : String) (v : ℚ) :
    (setMetric s key v).Typ = s.Typ := by
  unfold setMetric; split_ifs <;> rfl

theorem setMetric_Metrics_lookup (s : DDSpan) (key : String) (v : ℚ) (q : String)
    (h1 : q ≠ key) (h2 : q ≠ keySamplingPriority) :
    mapLookup q (setMetric s key v).Metrics = mapLookup q s.Metrics := by
  unfold setMetric; split_ifs <;> simp [mapLookup_insert_ne, h1, h2]

@[simp] theorem setError_Metrics (s : DDSpan) (val : LabelValue) :
    (setError s val).Metrics = s.Metrics := by
  cases val <;> rfl

@[simp] theorem setError_Typ (s : DDSpan) (val : LabelValue) :
    (setError s val).Typ = s.Typ := by
  cases val <;> rfl

theorem setError_Meta_lookup (s : DDSpan) (val : LabelValue) (q : String)
    (h2 : q ≠ extErrorMsg) :
    mapLookup q (setError s val).Meta = mapLookup q s.Meta := by
  cases val <;> simp [setError, mapLookup_insert_ne, h2]

theorem setError_Error (s : DDSpan) (val : LabelValue) :
    (setError s val).Error = errorFlagValue val := by
  cases val <;> rfl

@[simp] theorem setStringTag_Error (s : DDSpan) (key v : String) :
    (setStringTag s key v).Error = s.Error := by
  unfold setStringTag; split_ifs <;> simp

theorem setStringTag_Typ (s : DDSpan) (key v : String) (h : key ≠ extSpanType) :
    (setStringTag s key v).Typ = s.Typ := by
  unfold setStringTag; split_ifs <;> rfl

theorem setStringTag_Meta_lookup (s : DDSpan) (key v : String) (q : String)
    (h1 : q ≠ key) :
    mapLookup q (setStringTag s key v).Meta = mapLookup q s.Meta := by
  unfold setStringTag
  split_ifs <;> simp [mapLookup_insert_ne, h1]

theorem setStringTag_Metrics_lookup (s : DDSpan) (key v : String) (q : String)
    (h2 : q ≠ extEventSampleRate) (h3 : q ≠ keySamplingPriority) :
    mapLookup q (setStringTag s key v).Metrics = mapLookup q s.Metrics := by
  unfold setStringTag
  split_ifs <;> first | rfl | (apply setMetric_Metrics_lookup <;> assumption)

theorem setTag_Error_of_ne (s : DDSpan) (key : String) (val : LabelValue)
    (h : key ≠ extError) : (setTag s key val).Error = s.Error := by
  unfold setTag; rw [if_neg h]; cases val <;> simp

theorem setTag_Error_reserved (s : DDSpan) (val : LabelValue) :
    (setTag s extError val).Error = errorFlagValue val := by
  unfold setTag; rw [if_pos rfl]; exact setError_Error s val

theorem setTag_Typ (s : DDSpan) (key : String) (val : LabelValue)
    (h : key ≠ extSpanType) : (setTag s key val).Typ = s.Typ := by
  unfold setTag
  split_ifs with he
  · simp
  · cases val <;> first | rfl | (apply setStringTag_Typ; exact h) | simp

theorem setTag_Meta_lookup (s : DDSpan) (key : String) (val : LabelValue) (q : String)
    (h1 : q ≠ key) (h2 : q ≠ extErrorMsg) :
    mapLookup q (setTag s key val).Meta = mapLookup q s.Meta := by
  unfold setTag
  split_ifs with he
  · exact setError_Meta_lookup s val q h2
  · cases val <;>
      first
      | rfl
      | (apply setStringTag_Meta_lookup; exact h1)
      | simp

theorem setTag_Metrics_lookup (s : DDSpan) (key : String) (val : LabelValue) (q : String)
    (h1 : q ≠ key) (h2 : q ≠ extEventSampleRate) (h3 : q ≠ keySamplingPriority) :
    mapLookup q (setTag s key val).Metrics = mapLookup q s.Metrics := by
  unfold setTag
  split_ifs with he
  · simp
  · cases val <;>
      first
      | rfl
      | (apply setStringTag_Metrics_lookup <;> assumption)
      | (apply setMetric_Metrics_lookup <;> assumption)

theorem applyTags_nil (s : DDSpan) : applyTags [] s = s := rfl

theorem applyTags_cons (p : String × LabelValue) (rest : List (String × LabelValue))
    (s : DDSpan) : applyTags (p :: rest) s = applyTags rest (setTag s p.1 p.2) := rfl

theorem applyTags_append (l1 l2 : List (String × LabelValue)) (s : DDSpan) :
    applyTags (l1 ++ l2) s = applyTags l2 (applyTags l1 s) :=
  List.foldl_append _ _ _ _

theorem applyTags_Error (l : List (String × LabelValue)) (s : DDSpan)
    (h : ∀ p ∈ l, p.1 ≠ extError) : (applyTags l s).Error = s.Error := by
  induction l generalizing s with
  | nil => rfl
  | cons p rest ih =>
    rw [applyTags_cons, ih _ fun q hq => h q (List.mem_cons_of_mem p hq)]
    exact setTag_Error_of_ne s p.1 p.2 (h p (List.mem_cons_self p rest))

theorem applyTags_Typ (l : List (String × LabelValue)) (s : DDSpan)
    (h : ∀ p ∈ l, p.1 ≠ extSpanType) : (applyTags l s).Typ = s.Typ := by
  induction l generalizing s with
  | nil => rfl
  | cons p rest ih =>
    rw [applyTags_cons, ih _ fun q hq => h q (List.mem_cons_of_mem p hq)]
    exact setTag_Typ s p.1 p.2 (h p (List.mem_cons_self p rest))

theorem applyTags_Meta_lookup (l : List (String × LabelValue)) (s : DDSpan) (q : String)
    (h2 : q ≠ extErrorMsg) (h : ∀ p ∈ l, q ≠ p.1) :
    mapLookup q (applyTags l s).Meta = mapLookup q s.Meta := by
  induction l generalizing s with
  | nil => rfl
  | cons p rest ih =>
    rw [applyTags_cons, ih _ fun r hr => h r (List.mem_cons_of_mem p hr)]
    exact setTag_Meta_lookup s p.1 p.2 q (h p (List.mem_cons_self p rest)) h2

theorem applyTags_Metrics_lookup (l : List (String × LabelValue)) (s : DDSpan) (q : String)
    (h2 : q ≠ extEventSampleRate) (h3 : q ≠ keySamplingPriority)
    (h : ∀ p ∈ l, q ≠ p.1) :
    mapLookup q (applyTags l s).Metrics = mapLookup q s.Metrics := by
  induction l generalizing s with
  | nil => rfl
  | cons p rest ih =>
    rw [applyTags_cons, ih _ fun r hr => h r (List.mem_cons_of_mem p hr)]
    exact setTag_Metrics_lookup s p.1 p.2 q (h p (List.mem_cons_self p rest)) h2 h3

theorem statusPhase_Error (opts : Options) (s : SpanData) :
    (statusPhase opts s).Error
      = statusErrorFlag s.spanKind (resolveStatus s.statusCode).status := rfl

theorem statusPhase_Meta_statusCode (opts : Options) (s : SpanData) :
    mapLookup keyStatusCode (statusPhase opts s).Meta = some (toString s.statusCode) := by
  simp only [statusPhase]
  split_ifs <;>
    simp [mapLookup, mapInsert, keyStatusCode, keyStatus, keyStatusDescription,
      extErrorMsg, extErrorType]

theorem statusPhase_Meta_status (opts : Options) (s : SpanData) :
    mapLookup keyStatus (statusPhase opts s).Meta
      = some (resolveStatus s.statusCode).message := by
  simp only [statusPhase]
  split_ifs <;>
    simp [mapLookup, mapInsert, keyStatusCode, keyStatus, keyStatusDescription,
      extErrorMsg, extErrorType]

theorem statusPhase_Meta_description (opts : Options) (s : SpanData) :
    mapLookup keyStatusDescription (statusPhase opts s).Meta
      = (if s.statusMessage ≠ "" then some s.statusMessage else none) := by
  simp only [statusPhase]
  split_ifs <;>
    simp [mapLookup, mapInsert, keyStatusCode, keyStatus, keyStatusDescription,
      extErrorMsg, extErrorType]

theorem statusPhase_Meta_errorType (opts : Options) (s : SpanData) :
    mapLookup extErrorType (statusPhase opts s).Meta
      = (if statusErrorFlag s.spanKind (resolveStatus s.statusCode).status = 1
         then some (resolveStatus s.statusCode).message else none) := by
  simp only [statusPhase]
  split_ifs <;>
    simp [mapLookup, mapInsert, keyStatusCode, keyStatus, keyStatusDescription,
      extErrorMsg, extErrorType]

theorem statusPhase_Meta_errorMsg (opts : Options) (s : SpanData) :
    mapLookup extErrorMsg (statusPhase opts s).Meta
      = (if statusErrorFlag s.spanKind (resolveStatus s.statusCode).status = 1
         then (if s.statusMessage ≠ "" then some s.statusMessage else none)
         else none) := by
  simp only [statusPhase]
  split_ifs <;>
    simp [mapLookup, mapInsert, keyStatusCode, keyStatus, keyStatusDescription,
      extErrorMsg, extErrorType]

theorem setStringTag_Metrics_of_ne (s : DDSpan) (key v : String)
    (h : key ≠ extAnalyticsEvent) : (setStringTag s key v).Metrics = s.Metrics := by
  unfold setStringTag; split_ifs <;> rfl

theorem setTag_Meta_lookup_no_error (s : DDSpan) (key : String) (val : LabelValue)
    (q : String) (hk : key ≠ extError) (h1 : q ≠ key) :
    mapLookup q (setTag s key val).Meta = mapLookup q s.Meta := by
  unfold setTag; rw [if_neg hk]
  cases val <;>
    first
    | rfl
    | (apply setStringTag_Meta_lookup; exact h1)
    | simp

theorem applyTags_Meta_lookup_no_error (l : List (String × LabelValue)) (s : DDSpan)
    (q : String) (h : ∀ p ∈ l, q ≠ p.1 ∧ p.1 ≠ extError) :
    mapLookup q (applyTags l s).Meta = mapLookup q s.Meta := by
  induction l generalizing s with
  | nil => rfl
  | cons p rest ih =>
    rw [applyTags_cons, ih _ fun r hr => h r (List.mem_cons_of_mem p hr)]
    exact setTag_Meta_lookup_no_error s p.1 p.2 q (h p (List.mem_cons_self p rest)).2
      (h p (List.mem_cons_self p rest)).1

theorem statusPhase_Typ (opts : Options) (s : SpanData) :
    (statusPhase opts s).Typ = spanKindType s.spanKind := rfl

theorem setTag_string_default (s : DDSpan) (k v : String)
    (h0 : k ≠ extError) (h1 : k ≠ extServiceName) (h2 : k ≠ extResourceName)
    (h3 : k ≠ extSpanType) (h4 : k ≠ extAnalyticsEvent) (h5 : k ≠ keySpanName) :
    mapLookup k (setTag s k (.STRING v)).Meta = some v := by
  unfold setTag setStringTag
  rw [if_neg h0]
  simp only [if_neg h1, if_neg h2, if_neg h3, if_neg h4, if_neg h5]
  exact mapLookup_insert_self k v s.Meta

theorem setTag_float64_metric (s : DDSpan) (k : String) (w : ℚ)
    (h0 : k ≠ extError) (h1 : k ≠ extSamplingPriority) :
    mapLookup k (setTag s k (.FLOAT64 w)).Metrics = some w := by
  unfold setTag setMetric
  rw [if_neg h0]
  simp only [if_neg h1]
  exact mapLookup_insert_self k w s.Metrics

/-- C5: for an attribute under the reserved error key, the error flag
of the record is exactly the type-directed value of the Error Rule
(string gives 1, bool gives 1 iff true, integers give 1 iff strictly
positive, invalid gives 0, every other type gives 1); the metrics are
untouched; a string value is additionally stored under the
error-message tag, and no other value type touches the tag map. -/
theorem c5_error_rule :
    ∀ (s : DDSpan) (val : LabelValue),
      (setTag s extError val).Error = errorFlagValue val
      ∧ (setTag s extError val).Metrics = s.Metrics
      ∧ (∀ str, val = .STRING str →
          mapLookup extErrorMsg (setTag s extError val).Meta = some str)
      ∧ ((∀ str, val ≠ .STRING str) → (setTag s extError val).Meta = s.Meta) := by
  intro s val
  refine ⟨setTag_Error_reserved s val, ?_, ?_, ?_⟩
  · unfold setTag; rw [if_pos rfl]; exact setError_Metrics s val
  · rintro str rfl
    unfold setTag; rw [if_pos rfl]
    simp [setError, mapLookup_insert_self]
  · intro hns
    unfold setTag; rw [if_pos rfl]
    cases val <;> first | rfl | exact absurd rfl (hns _)

/-- C5 witness: the error rule evaluated at a concrete string value. -/
theorem c5_witness :
    (setTag emptySpan extError (.STRING "boom")).Error = errorFlagValue (.STRING "boom")
    ∧ mapLookup extErrorMsg (setTag emptySpan extError (.STRING "boom")).Meta = some "boom" :=
  ⟨(c5_error_rule emptySpan (.STRING "boom")).1,
   (c5_error_rule emptySpan (.STRING "boom")).2.2.1 "boom" rfl⟩

/-- C6: the status translator is total: every code of the fixed table
resolves to its table entry, and every code outside the table resolves
to the synthesized ERR_CODE message with the generic server-error
class 500. -/
theorem c6_status_translator_total :
    (∀ c : Nat, 17 ≤ c → resolveStatus c = ⟨"ERR_CODE_" ++ toString c, 500⟩)
    ∧ resolveStatus 0 = ⟨"OK", 200⟩
    ∧ resolveStatus 1 = ⟨"CANCELLED", 499⟩
    ∧ resolveStatus 2 = ⟨"UNKNOWN", 500⟩
    ∧ resolveStatus 3 = ⟨"INVALID_ARGUMENT", 400⟩
    ∧ resolveStatus 4 = ⟨"DEADLINE_EXCEEDED", 504⟩
    ∧ resolveStatus 5 = ⟨"NOT_FOUND", 404⟩
    ∧ resolveStatus 6 = ⟨"ALREADY_EXISTS", 409⟩
    ∧ resolveStatus 7 = ⟨"PERMISSION_DENIED", 403⟩
    ∧ resolveStatus 8 = ⟨"RESOURCE_EXHAUSTED", 429⟩
    ∧ resolveStatus 9 = ⟨"FAILED_PRECONDITION", 400⟩
    ∧ resolveStatus 10 = ⟨"ABORTED", 409⟩
    ∧ resolveStatus 11 = ⟨"OUT_OF_RANGE", 400⟩
    ∧ resolveStatus 12 = ⟨"UNIMPLEMENTED", 501⟩
    ∧ resolveStatus 13 = ⟨"INTERNAL", 500⟩
    ∧ resolveStatus 14 = ⟨"UNAVAILABLE", 503⟩
    ∧ resolveStatus 15 = ⟨"DATA_LOSS", 501⟩
    ∧ resolveStatus 16 = ⟨"UNAUTHENTICATED", 401⟩ := by
  refine ⟨fun c hc => ?_, rfl, rfl, rfl, rfl, rfl, rfl, rfl, rfl, rfl, rfl, rfl, rfl, rfl,
    rfl, rfl, rfl, rfl⟩
  have h : statusCodes c = none := by
    obtain ⟨k, rfl⟩ : ∃ k, c = k + 17 := ⟨c - 17, by omega⟩
    rfl
  simp [resolveStatus, h]

/-- C6 witness: an out-of-table code resolves to the synthesized
fallback entry. -/
theorem c6_witness : resolveStatus 100 = ⟨"ERR_CODE_" ++ toString 100, 500⟩ :=
  c6_status_translator_total.1 100 (by decide)

/-- C8: an analytics-event attribute of string or bool type writes the
event-sample-rate metric instead of a string tag: 0 for the rendered
value false, 1 for any other rendered value; the tag map is untouched. -/
theorem c8_analytics_event :
    ∀ (s : DDSpan) (v : String) (b : Bool),
      (setTag s extAnalyticsEvent (.STRING v)).Metrics
          = mapInsert extEventSampleRate (if v = "false" then 0 else 1) s.Metrics
      ∧ (setTag s extAnalyticsEvent (.STRING v)).Meta = s.Meta
      ∧ (setTag s extAnalyticsEvent (.BOOL b)).Metrics
          = mapInsert extEventSampleRate (if b then 1 else 0) s.Metrics
      ∧ (setTag s extAnalyticsEvent (.BOOL b)).Meta = s.Meta := by
  intro s v b
  refine ⟨?_, ?_, ?_, ?_⟩
  · by_cases hv : v = "false" <;>
      simp [setTag, setStringTag, setMetric, hv, extError, extServiceName, extResourceName,
        extSpanType, extAnalyticsEvent, extSamplingPriority, extEventSampleRate, keySpanName]
  · by_cases hv : v = "false" <;>
      simp [setTag, setStringTag, setMetric, hv, extError, extServiceName, extResourceName,
        extSpanType, extAnalyticsEvent, extSamplingPriority, extEventSampleRate, keySpanName]
  · cases b <;>
      simp [setTag, setStringTag, setMetric, extError, extServiceName, extResourceName,
        extSpanType, extAnalyticsEvent, extSamplingPriority, extEventSampleRate, keySpanName]
  · cases b <;>
      simp [setTag, setStringTag, setMetric, extError, extServiceName, extResourceName,
        extSpanType, extAnalyticsEvent, extSamplingPriority, extEventSampleRate, keySpanName]

/-- C10: a numeric-typed attribute is stored as a plain metric even
when its key is one of the five string-rule reserved keys, leaving the
structural fields and the tag map unchanged; in the metric path only
the sampling-priority key is renamed before storage. -/
theorem c10_numeric_bypasses_string_rule :
    ∀ (s : DDSpan) (key : String) (val : LabelValue), isNumeric val = true →
      (key ∈ [extServiceName, extResourceName, extSpanType, keySpanName, extAnalyticsEvent] →
        setTag s key val = { s with Metrics := mapInsert key (numericValue val) s.Metrics })
      ∧ setTag s extSamplingPriority val
          = { s with Metrics := mapInsert keySamplingPriority (numericValue val) s.Metrics } := by
  intro s key val hv
  have h5 : ∀ k, k ∈ [extServiceName, extResourceName, extSpanType, keySpanName,
      extAnalyticsEvent] → k ≠ extError ∧ k ≠ extSamplingPriority := by decide
  constructor
  · intro hk
    obtain ⟨h1, h2⟩ := h5 key hk
    cases val <;> simp_all [setTag, setMetric, numericValue, isNumeric]
  · have h1 : extSamplingPriority ≠ extError := by decide
    cases val <;> simp_all [setTag, setMetric, numericValue, isNumeric]

/-- C10 witness: an integer attribute under the span-type key becomes a
metric under the span-type key itself. -/
theorem c10_witness :
    setTag emptySpan extSpanType (.INT64 7)
      = { emptySpan with Metrics := mapInsert extSpanType (numericValue (.INT64 7)) emptySpan.Metrics } :=
  (c10_numeric_bypasses_string_rule emptySpan extSpanType (.INT64 7) rfl).1 (by decide)

/-- C2 counterexample: with a global string tag under the key foo and a
local integer attribute under the same key, the returned record holds
foo in the tag map and in the metric map at the same time, refuting the
claim that no key ever appears in both. -/
theorem c2_counterexample :
    mapLookup "foo" (convertSpan c2Opts c2Span).Meta = some "x"
    ∧ mapLookup "foo" (convertSpan c2Opts c2Span).Metrics = some 1 := by decide

/-- C2 amended: a single application of the dispatch rule changes at
most one of the two mappings at the dispatched key, so each attribute
is routed to exactly one slot per application; a key can still end up
in both mappings through two applications with differing value types. -/
theorem c2_single_slot_per_dispatch :
    ∀ (s : DDSpan) (key : String) (val : LabelValue),
      mapLookup key (setTag s key val).Meta = mapLookup key s.Meta
      ∨ mapLookup key (setTag s key val).Metrics = mapLookup key s.Metrics := by
  intro s key val
  by_cases he : key = extError
  · subst he
    right
    unfold setTag; rw [if_pos rfl]
    rw [setError_Metrics]
  · have hstr : ∀ v : String, mapLookup key (setTag s key (.STRING v)).Meta
        = mapLookup key s.Meta
        ∨ mapLookup key (setTag s key (.STRING v)).Metrics = mapLookup key s.Metrics := by
      intro v
      by_cases ha : key = extAnalyticsEvent
      · left
        unfold setTag; rw [if_neg he]
        subst ha
        unfold setStringTag
        split_ifs <;> simp_all
        split_ifs <;> simp
      · right
        unfold setTag; rw [if_neg he]
        rw [setStringTag_Metrics_of_ne s key v ha]
    cases val with
    | STRING v => exact hstr v
    | BOOL b =>
      rcases hstr (if b then "true" else "false") with h | h
      · left
        unfold setTag at h ⊢; rw [if_neg he] at h ⊢
        exact h
      · right
        unfold setTag at h ⊢; rw [if_neg he] at h ⊢
        exact h
    | ARRAY r =>
      rcases hstr r with h | h
      · left
        unfold setTag at h ⊢; rw [if_neg he] at h ⊢
        exact h
      · right
        unfold setTag at h ⊢; rw [if_neg he] at h ⊢
        exact h
    | INVALID => left; unfold setTag; rw [if_neg he]
    | INT32 i => left; unfold setTag; rw [if_neg he]; rw [setMetric_Meta]
    | INT64 i => left; unfold setTag; rw [if_neg he]; rw [setMetric_Meta]
    | UINT32 n => left; unfold setTag; rw [if_neg he]; rw [setMetric_Meta]
    | UINT64 n => left; unfold setTag; rw [if_neg he]; rw [setMetric_Meta]
    | FLOAT32 q => left; unfold setTag; rw [if_neg he]; rw [setMetric_Meta]
    | FLOAT64 q => left; unfold setTag; rw [if_neg he]; rw [setMetric_Meta]

/-- C7: global tags are folded through the dispatch before the local
attributes; when a local attribute shares its key with a global tag and
both land in the same slot (shown for the string-tag slot and for the
metric slot at an unreserved key), the local value is the one found in
the returned record, with no conflict error. -/
theorem c7_last_write_wins :
    ∀ (opts : Options) (s : SpanData) (gts1 gts2 ats1 ats2 : List (String × LabelValue))
      (k : String) (vg vl : String) (wg wl : ℚ),
      k ∉ dispatchReservedKeys →
      (∀ p ∈ ats2, p.1 ≠ k) →
      (opts.globalTags = gts1 ++ (k, .STRING vg) :: gts2 →
        s.attributes = ats1 ++ (k, .STRING vl) :: ats2 →
        mapLookup k (convertSpan opts s).Meta = some vl)
      ∧ (opts.globalTags = gts1 ++ (k, .FLOAT64 wg) :: gts2 →
        s.attributes = ats1 ++ (k, .FLOAT64 wl) :: ats2 →
        mapLookup k (convertSpan opts s).Metrics = some wl) := by
  intro opts s gts1 gts2 ats1 ats2 k vg vl wg wl hres hats2
  simp only [dispatchReservedKeys, List.mem_cons, List.mem_singleton, not_or,
    List.not_mem_nil, or_false] at hres
  obtain ⟨hk0, hk1, hk2, hk3, hk4, hk5, hk6, hk7, hk8, hk9⟩ := hres
  constructor
  · intro _ hat
    unfold convertSpan
    rw [hat, applyTags_append, applyTags_cons,
      applyTags_Meta_lookup ats2 _ k hk6 fun p hp => (hats2 p hp).symm]
    exact setTag_string_default _ k vl hk0 hk1 hk2 hk3 hk4 hk5
  · intro _ hat
    unfold convertSpan
    rw [hat, applyTags_append, applyTags_cons,
      applyTags_Metrics_lookup ats2 _ k hk7 hk9 fun p hp => (hats2 p hp).symm]
    exact setTag_float64_metric _ k wl hk0 hk8

/-- C7 witness: a concrete global tag and local attribute under the
same unreserved key; the local value wins. -/
theorem c7_witness :
    mapLookup "custom" (convertSpan c7Opts c7Span).Meta = some "local" :=
  ((c7_last_write_wins c7Opts c7Span [] [] [] [] "custom" "global" "local" 0 0
    (by decide) (by simp)).1) rfl rfl

theorem convertSpan_as_single_fold (opts : Options) (s : SpanData) :
    convertSpan opts s
      = applyTags (opts.globalTags ++ s.attributes) (statusPhase opts s) := by
  unfold convertSpan
  rw [applyTags_append]

theorem setTag_Meta_errorMsg_preserved (s : DDSpan) (key : String) (val : LabelValue)
    (h1 : key ≠ extErrorMsg) (h2 : key = extError → ∀ str, val ≠ .STRING str) :
    mapLookup extErrorMsg (setTag s key val).Meta = mapLookup extErrorMsg s.Meta := by
  by_cases he : key = extError
  · subst he
    unfold setTag; rw [if_pos rfl]
    cases val <;> first | rfl | exact absurd rfl (h2 rfl _)
  · exact setTag_Meta_lookup_no_error s key val extErrorMsg he (Ne.symm h1)

theorem applyTags_Meta_errorMsg_preserved (l : List (String × LabelValue)) (s : DDSpan)
    (h : ∀ p ∈ l, p.1 ≠ extErrorMsg ∧ (p.1 = extError → ∀ str, p.2 ≠ .STRING str)) :
    mapLookup extErrorMsg (applyTags l s).Meta = mapLookup extErrorMsg s.Meta := by
  induction l generalizing s with
  | nil => rfl
  | cons p rest ih =>
    rw [applyTags_cons, ih _ fun r hr => h r (List.mem_cons_of_mem p hr)]
    exact setTag_Meta_errorMsg_preserved s p.1 p.2 (h p (List.mem_cons_self p rest)).1
      (h p (List.mem_cons_self p rest)).2

/-- C9: the last error-key attribute of the combined sequence of global
tags followed by local attributes alone decides the final error flag of
the returned record, regardless of the status-derived signal; and both
tags written by the status step stay in the record: the error-type tag
when no attribute touches that tag key, and the error-message tag (for
a non-empty status message) when no attribute touches that tag key and
no error-key attribute carries a string value. -/
theorem c9_error_attribute_overrides :
    ∀ (opts : Options) (s : SpanData) (l1 l2 : List (String × LabelValue))
      (v : LabelValue),
      opts.globalTags ++ s.attributes = l1 ++ (extError, v) :: l2 →
      (∀ p ∈ l2, p.1 ≠ extError) →
      (convertSpan opts s).Error = errorFlagValue v
      ∧ ((∀ p ∈ opts.globalTags ++ s.attributes, p.1 ≠ extErrorType) →
          statusErrorFlag s.spanKind (resolveStatus s.statusCode).status = 1 →
          mapLookup extErrorType (convertSpan opts s).Meta
            = some (resolveStatus s.statusCode).message)
      ∧ ((∀ p ∈ opts.globalTags ++ s.attributes,
            p.1 ≠ extErrorMsg ∧ (p.1 = extError → ∀ str, p.2 ≠ .STRING str)) →
          statusErrorFlag s.spanKind (resolveStatus s.statusCode).status = 1 →
          s.statusMessage ≠ "" →
          mapLookup extErrorMsg (convertSpan opts s).Meta = some s.statusMessage) := by
  intro opts s l1 l2 v hsplit hl2
  refine ⟨?_, ?_, ?_⟩
  · rw [convertSpan_as_single_fold, hsplit, applyTags_append, applyTags_cons,
      applyTags_Error l2 _ hl2]
    exact setTag_Error_reserved _ v
  · intro hno hflag
    have hmsgne : extErrorType ≠ extErrorMsg := by decide
    rw [convertSpan_as_single_fold,
      applyTags_Meta_lookup _ _ extErrorType hmsgne fun p hp => (hno p hp).symm,
      statusPhase_Meta_errorType, if_pos hflag]
  · intro hcond hflag hmsg
    rw [convertSpan_as_single_fold, applyTags_Meta_errorMsg_preserved _ _ hcond,
      statusPhase_Meta_errorMsg, if_pos hflag, if_pos hmsg]

/-- C9 witness: a server span with a 500-class status, the message
boom, and an error attribute of bool false returns error flag 0 while
keeping both the error-type tag and the error-message tag written by
the status step. -/
theorem c9_witness :
    (convertSpan exOpts c9Span).Error = errorFlagValue (.BOOL false)
    ∧ mapLookup extErrorType (convertSpan exOpts c9Span).Meta
        = some (resolveStatus c9Span.statusCode).message
    ∧ mapLookup extErrorMsg (convertSpan exOpts c9Span).Meta
        = some c9Span.statusMessage :=
  ⟨(c9_error_attribute_overrides exOpts c9Span [] [] (.BOOL false) rfl (by simp)).1,
   (c9_error_attribute_overrides exOpts c9Span [] [] (.BOOL false) rfl (by simp)).2.1
     (by decide) (by decide),
   (c9_error_attribute_overrides exOpts c9Span [] [] (.BOOL false) rfl (by simp)).2.2
     (by simp [exOpts, c9Span, extError, extErrorMsg]) (by decide) (by decide)⟩

/-- C1 counterexample: a server span with a 500-class status and an
empty status message has error flag 1 yet no error-message tag, so the
error-specific tags are not populated whenever the error flag is 1. -/
theorem c1_counterexample :
    (convertSpan exOpts c1Span).Error = 1
    ∧ mapLookup extErrorMsg (convertSpan exOpts c1Span).Meta = none := by decide

/-- C1 amended: for spans whose global tags and attributes avoid the
reserved error key and the five status and error tag keys, the status
code and status message tags are always populated, the status
description tag is populated exactly when the status message is
non-empty, the error-type tag is populated exactly when the error flag
is 1, and the error-message tag is populated exactly when the error
flag is 1 and the status message is non-empty. -/
theorem c1_status_and_error_tags :
    ∀ (opts : Options) (s : SpanData),
      (∀ p ∈ opts.globalTags ++ s.attributes, p.1 ∉ statusReservedKeys) →
      mapLookup keyStatusCode (convertSpan opts s).Meta = some (toString s.statusCode)
      ∧ mapLookup keyStatus (convertSpan opts s).Meta
          = some (resolveStatus s.statusCode).message
      ∧ mapLookup keyStatusDescription (convertSpan opts s).Meta
          = (if s.statusMessage ≠ "" then some s.statusMessage else none)
      ∧ mapLookup extErrorType (convertSpan opts s).Meta
          = (if (convertSpan opts s).Error = 1
             then some (resolveStatus s.statusCode).message else none)
      ∧ mapLookup extErrorMsg (convertSpan opts s).Meta
          = (if (convertSpan opts s).Error = 1
             then (if s.statusMessage ≠ "" then some s.statusMessage else none)
             else none) := by
  intro opts s h
  have hg : ∀ p ∈ opts.globalTags, p.1 ∉ statusReservedKeys :=
    fun p hp => h p (List.mem_append_left _ hp)
  have ha : ∀ p ∈ s.attributes, p.1 ∉ statusReservedKeys :=
    fun p hp => h p (List.mem_append_right _ hp)
  have herrg : ∀ p ∈ opts.globalTags, p.1 ≠ extError :=
    fun p hp hc => hg p hp (by rw [hc]; decide)
  have herra : ∀ p ∈ s.attributes, p.1 ≠ extError :=
    fun p hp hc => ha p hp (by rw [hc]; decide)
  have herr : (convertSpan opts s).Error
      = statusErrorFlag s.spanKind (resolveStatus s.statusCode).status := by
    unfold convertSpan
    rw [applyTags_Error _ _ herra, applyTags_Error _ _ herrg, statusPhase_Error]
  have cond : ∀ (q : String), q ∈ statusReservedKeys →
      ∀ (l : List (String × LabelValue)), (∀ p ∈ l, p.1 ∉ statusReservedKeys) →
      ∀ p ∈ l, q ≠ p.1 ∧ p.1 ≠ extError := by
    intro q hq l hl p hp
    refine ⟨fun hc => hl p hp (hc ▸ hq), fun hc => hl p hp (by rw [hc]; decide)⟩
  have hpres : ∀ q ∈ statusReservedKeys,
      mapLookup q (convertSpan opts s).Meta = mapLookup q (statusPhase opts s).Meta := by
    intro q hq
    unfold convertSpan
    rw [applyTags_Meta_lookup_no_error _ _ q (cond q hq _ ha),
      applyTags_Meta_lookup_no_error _ _ q (cond q hq _ hg)]
  refine ⟨?_, ?_, ?_, ?_, ?_⟩
  · rw [hpres keyStatusCode (by decide), statusPhase_Meta_statusCode]
  · rw [hpres keyStatus (by decide), statusPhase_Meta_status]
  · rw [hpres keyStatusDescription (by decide), statusPhase_Meta_description]
  · rw [hpres extErrorType (by decide), statusPhase_Meta_errorType, herr]
  · rw [hpres extErrorMsg (by decide), statusPhase_Meta_errorMsg, herr]

/-- C1 witness: the amended statement evaluated on a concrete client
span with a status message and one ordinary attribute. -/
theorem c1_witness :
    mapLookup keyStatusCode (convertSpan exOpts c1wSpan).Meta
        = some (toString c1wSpan.statusCode)
    ∧ mapLookup keyStatus (convertSpan exOpts c1wSpan).Meta
        = some (resolveStatus c1wSpan.statusCode).message
    ∧ mapLookup keyStatusDescription (convertSpan exOpts c1wSpan).Meta
        = (if c1wSpan.statusMessage ≠ "" then some c1wSpan.statusMessage else none)
    ∧ mapLookup extErrorType (convertSpan exOpts c1wSpan).Meta
        = (if (convertSpan exOpts c1wSpan).Error = 1
           then some (resolveStatus c1wSpan.statusCode).message else none)
    ∧ mapLookup extErrorMsg (convertSpan exOpts c1wSpan).Meta
        = (if (convertSpan exOpts c1wSpan).Error = 1
           then (if c1wSpan.statusMessage ≠ "" then some c1wSpan.statusMessage else none)
           else none) :=
  c1_status_and_error_tags exOpts c1wSpan (by decide)

/-- C3 counterexample: a client span with a 400-class status carrying
an error attribute of bool false is returned with error flag 0, though
the claim requires flag 1 for every client span with a 4xx status. -/
theorem c3_counterexample :
    (resolveStatus c3Span.statusCode).status / 100 = 4
    ∧ (convertSpan exOpts c3Span).Typ = "client"
    ∧ (convertSpan exOpts c3Span).Error = 0 := by decide

/-- C3 amended: for client-kind spans whose global tags and attributes
use neither the reserved error key nor the span-type key, the record
has type client and its error flag is 1 exactly when the resolved HTTP
class is 4xx, 0 for every other class. -/
theorem c3_client_kind :
    ∀ (opts : Options) (s : SpanData), s.spanKind = .client →
      (∀ p ∈ opts.globalTags ++ s.attributes, p.1 ≠ extError ∧ p.1 ≠ extSpanType) →
      (convertSpan opts s).Typ = "client"
      ∧ (convertSpan opts s).Error
          = (if (resolveStatus s.statusCode).status / 100 = 4 then 1 else 0) := by
  intro opts s hk h
  have hg := fun p hp => h p (List.mem_append_left s.attributes hp)
  have ha := fun p hp => h p (List.mem_append_right opts.globalTags hp)
  constructor
  · unfold convertSpan
    rw [applyTags_Typ _ _ (fun p hp => (ha p hp).2),
      applyTags_Typ _ _ (fun p hp => (hg p hp).2), statusPhase_Typ, hk]
    rfl
  · unfold convertSpan
    rw [applyTags_Error _ _ (fun p hp => (ha p hp).1),
      applyTags_Error _ _ (fun p hp => (hg p hp).1), statusPhase_Error, hk]
    rfl

/-- C3 witness: the amended statement evaluated on a concrete client
span with the NotFound status and no attributes. -/
theorem c3_witness :
    (convertSpan exOpts c3wSpan).Typ = "client"
    ∧ (convertSpan exOpts c3wSpan).Error
        = (if (resolveStatus c3wSpan.statusCode).status / 100 = 4 then 1 else 0) :=
  c3_client_kind exOpts c3wSpan rfl (by decide)

/-- C4 counterexample: a server span carrying a span-type string
attribute is returned with that attribute value as its type, not with
type server as the claim requires for every server-kind span. -/
theorem c4_counterexample :
    (convertSpan exOpts c4Span).Typ = "web"
    ∧ (convertSpan exOpts c4Span).Typ ≠ "server" := by decide

/-- C4 amended: a server-kind span is returned with type server
provided no global tag or attribute uses the span-type key, and the
status step of the conversion sets the error flag exactly when the
resolved HTTP class is 5xx, never for a 4xx class. -/
theorem c4_server_kind :
    ∀ (opts : Options) (s : SpanData), s.spanKind = .server →
      ((∀ p ∈ opts.globalTags ++ s.attributes, p.1 ≠ extSpanType) →
        (convertSpan opts s).Typ = "server")
      ∧ (statusErrorFlag SpanKind.server (resolveStatus s.statusCode).status = 1
          ↔ (resolveStatus s.statusCode).status / 100 = 5) := by
  intro opts s hk
  constructor
  · intro h
    unfold convertSpan
    rw [applyTags_Typ _ _ (fun p hp => h p (List.mem_append_right opts.globalTags hp)),
      applyTags_Typ _ _ (fun p hp => h p (List.mem_append_left s.attributes hp)),
      statusPhase_Typ, hk]
    rfl
  · simp only [statusErrorFlag]
    split_ifs with hcl
    · simp [hcl]
    · simp [hcl]

/-- C4 witness: the amended statement evaluated on a concrete server
span with the Internal status. -/
theorem c4_witness :
    (convertSpan exOpts c4wSpan).Typ = "server"
    ∧ (statusErrorFlag SpanKind.server (resolveStatus c4wSpan.statusCode).status = 1
        ↔ (resolveStatus c4wSpan.statusCode).status / 100 = 5) :=
  ⟨(c4_server_kind exOpts c4wSpan rfl).1 (by decide),
   (c4_server_kind exOpts c4wSpan rfl).2⟩
